import Mathlib

/-!
Verification development for the `claude-code-discord-ui` repository.

The definitions below are a shallow embedding of the core of the program:

* `cleanSessionId` and the streaming-session client `sendToClaudeCode`
  (from `src/claude/client.ts`);
* the invocation-session coordinator embedded in the slash-command handlers
  (from `src/claude/command.ts`);
* the two `ShellManager` process supervisors
  (from `src/shell.ts` and from the second document of `src/unnamed/part_004`).

JavaScript strings are modelled as Lean `String`s (operated on via `List Char`),
JS numbers used as ids/exit codes as `Nat`/`Int`, thrown errors as
`Except`, and asynchronous effects (spawns, signals, stdin writes, callback
deliveries) as explicit effect traces.
-/

/-- The backtick character (U+0060). -/
def backtick : Char := Char.ofNat 96

/-- Does `pat` occur as a contiguous run inside `l`? -/
def infixCheck (pat : List Char) : List Char → Bool
  | [] => pat.isEmpty
  | x :: xs => pat.isPrefixOf (x :: xs) || infixCheck pat xs

/-- JS `String.prototype.includes`, restricted to the plain ASCII patterns the
program searches for. -/
def includes (s pat : String) : Bool := infixCheck pat.data s.data

/-- The whitespace characters stripped by JS `String.prototype.trim`
(modelled over the ASCII whitespace set; the identifiers the program
trims only ever carry spaces, tabs and newlines). -/
def isJsSpace (c : Char) : Bool :=
  c = ' ' || c = '\t' || c = '\n' || c = '\r' || c = '\x0b' || c = '\x0c'

/-- Remove leading JS whitespace. -/
def trimLeftChars (l : List Char) : List Char := l.dropWhile isJsSpace

/-- Remove trailing JS whitespace. -/
def trimRightChars (l : List Char) : List Char :=
  (l.reverse.dropWhile isJsSpace).reverse

/-- JS `.trim()`: strip whitespace from both ends. -/
def jsTrim (l : List Char) : List Char := trimRightChars (trimLeftChars l)

/-- `.replace(/^`+|`+$/g, '')`: drop the maximal run of backticks at each end. -/
def stripTickEnds (l : List Char) : List Char :=
  ((l.dropWhile (· = backtick)).reverse.dropWhile (· = backtick)).reverse

/-- The leading half of `.replace(/^```\n?|\n?```$/g, '')`: if the string
starts with three backticks, remove them together with one following
newline when present. -/
def stripCodeBlockStart (l : List Char) : List Char :=
  match l with
  | a :: b :: c :: rest =>
    if a = backtick && b = backtick && c = backtick then
      match rest with
      | '\n' :: rest2 => rest2
      | _ => rest
    else a :: b :: c :: rest
  | other => other

/-- The trailing half of `.replace(/^```\n?|\n?```$/g, '')`: if the string
ends with three backticks, remove them together with one preceding
newline when present. -/
def stripCodeBlockEnd (l : List Char) : List Char :=
  match l.reverse with
  | a :: b :: c :: rest =>
    if a = backtick && b = backtick && c = backtick then
      match rest with
      | '\n' :: rest2 => rest2.reverse
      | _ => rest.reverse
    else l
  | _ => l

/-- `.replace(/[\r\n]/g, '')`: delete every carriage return and newline. -/
def removeNewlines (l : List Char) : List Char :=
  l.filter (fun c => !(c = '\r' || c = '\n'))

/-- `cleanSessionId` from `src/claude/client.ts`: trim, strip surrounding
backticks, strip code-block fences, delete embedded newlines, trim again. -/
def cleanSessionId (s : String) : String :=
  ⟨jsTrim (removeNewlines (stripCodeBlockEnd (stripCodeBlockStart
      (stripTickEnds (jsTrim s.data)))))⟩

example : cleanSessionId "`abc123`" = "abc123" := by decide
example : cleanSessionId "```\nabc123\n```" = "abc123" := by decide
example : cleanSessionId "  abc123\r\n" = "abc123" := by decide

/-!
## Streaming session client (`sendToClaudeCode`, `src/claude/client.ts`)

The Claude Code SDK's `query` iterator is the external primitive: one call
yields a sequence of messages and then either ends normally or throws.  The
shared `AbortController` signal may fire at any point between messages.  An
`AttemptBehavior` records how the environment behaves during one such call.
-/

/-- One SDK stream message, keeping exactly the fields the client reads:
`type`, truthiness of `message.message.content`, the joined text parts,
a present-and-truthy `session_id`, and the `total_cost_usd` / `duration_ms`
fields of a terminal message (absent = `none`). -/
structure SDKMessage where
  type : String
  hasContent : Bool
  textContent : String
  sessionId : Option String
  totalCostUsd : Option Int
  durationMs : Option Int
deriving DecidableEq, Repr

/-- A thrown JS error: its `name` and `message`. -/
structure JsError where
  name : String
  message : String
deriving DecidableEq, Repr

/-- Behaviour of one `claudeQuery` call: the messages the iterator yields,
an optional error it throws after the last yielded message, and the point at
which the abort signal fires (`abortAt = some k` means `controller.signal.
aborted` becomes true once `k` messages have been handled; `none` means it
never fires during this attempt). -/
structure AttemptBehavior where
  msgs : List SDKMessage
  failure : Option JsError
  abortAt : Option Nat
deriving DecidableEq, Repr

/-- Is the shared abort signal set after `n` messages have been handled? -/
def signalAborted (abortAt : Option Nat) (n : Nat) : Bool :=
  match abortAt with
  | none => false
  | some k => k ≤ n

/-- Result of `executeWithErrorHandling`'s `try` body. -/
structure InnerResult where
  messages : List SDKMessage
  response : String
  sessionId : Option String
  aborted : Bool
deriving DecidableEq, Repr

/-- The `currentResponse` accumulator of the stream loop: the last
assistant message with truthy content overwrites it, except when an
`onStreamJson` callback is installed (then the branch is skipped). -/
def computeResponse (hasOnStreamJson : Bool) (msgs : List SDKMessage) : String :=
  msgs.foldl
    (fun acc m =>
      if m.type = "assistant" && m.hasContent && !hasOnStreamJson then m.textContent else acc)
    ""

/-- The `currentSessionId` accumulator: the last message carrying a truthy
`session_id` wins. -/
def computeSessionId (msgs : List SDKMessage) : Option String :=
  msgs.foldl
    (fun acc m => match m.sessionId with | some sid => some sid | none => acc)
    none

/-- How many messages the `for await` loop handles: the loop checks the
abort signal at the top of each iteration body and breaks once it is set. -/
def processedMsgs (b : AttemptBehavior) : List SDKMessage :=
  match b.abortAt with
  | none => b.msgs
  | some k => b.msgs.take k

/-- `executeWithErrorHandling` from `src/claude/client.ts`: run the stream
loop; on a thrown error, return the cancelled inner result when the error is
an `AbortError`, the signal is aborted, or the message carries the
`exited with code 143` signature — otherwise rethrow. -/
def executeWithErrorHandling (b : AttemptBehavior) (hasOnStreamJson : Bool) :
    Except JsError InnerResult :=
  let broke : Bool := match b.abortAt with
    | none => false
    | some k => k < b.msgs.length
  if broke then
    Except.ok
      { messages := processedMsgs b
        response := computeResponse hasOnStreamJson (processedMsgs b)
        sessionId := computeSessionId (processedMsgs b)
        aborted := true }
  else
    match b.failure with
    | some e =>
      if e.name = "AbortError" || signalAborted b.abortAt b.msgs.length
          || includes e.message "exited with code 143" then
        Except.ok { messages := [], response := "", sessionId := none, aborted := true }
      else
        Except.error e
    | none =>
      Except.ok
        { messages := b.msgs
          response := computeResponse hasOnStreamJson b.msgs
          sessionId := computeSessionId b.msgs
          aborted := signalAborted b.abortAt b.msgs.length }

/-- The record returned by `sendToClaudeCode`. -/
structure ClaudeResult where
  response : String
  sessionId : Option String := none
  cost : Option Int := none
  duration : Option Int := none
  modelUsed : String
deriving DecidableEq, Repr

/-- The cancellation sentinel response text. -/
def cancelledResponse : String := "リクエストがキャンセルされました"

/-- The empty-stream sentinel response text. -/
def noResponseText : String := "応答がありません"

/-- The note appended when both the default and the fallback attempt fail. -/
def bothFailedNote : String :=
  "\n\n⚠️ デフォルトモデルとSonnet 4の両方でエラーが発生しました。しばらく時間を置いてから再度お試しください。"

/-- `messages[messages.length - 1]` followed by the `in`-operator reads:
on an empty array the indexing yields `undefined` and the `in` operator
throws a `TypeError`. -/
def getLastInfo (msgs : List SDKMessage) : Except JsError (Option Int × Option Int) :=
  match msgs.getLast? with
  | none => Except.error
      { name := "TypeError"
        message := "Cannot use 'in' operator to search for 'total_cost_usd' in undefined" }
  | some m => Except.ok (m.totalCostUsd, m.durationMs)

/-- The body of the outer `try` of `sendToClaudeCode`: run the default
attempt; on a cancelled result return the sentinel; otherwise build the
result record from the accumulated messages. -/
def attemptDefault (b : AttemptBehavior) (hasOnStreamJson : Bool) :
    Except JsError ClaudeResult :=
  match executeWithErrorHandling b hasOnStreamJson with
  | Except.error e => Except.error e
  | Except.ok r =>
    if r.aborted then
      Except.ok { response := cancelledResponse, modelUsed := "Default" }
    else
      match getLastInfo r.messages with
      | Except.error e => Except.error e
      | Except.ok (c, d) =>
        Except.ok
          { response := if r.response = "" then noResponseText else r.response
            sessionId := r.sessionId
            cost := c
            duration := d
            modelUsed := "Default" }

/-- The body of the inner `try` of `sendToClaudeCode` (the Sonnet 4 retry). -/
def attemptRetry (b : AttemptBehavior) (hasOnStreamJson : Bool) :
    Except JsError ClaudeResult :=
  match executeWithErrorHandling b hasOnStreamJson with
  | Except.error e => Except.error e
  | Except.ok r =>
    if r.aborted then
      Except.ok { response := cancelledResponse, modelUsed := "Claude Sonnet 4" }
    else
      match getLastInfo r.messages with
      | Except.error e => Except.error e
      | Except.ok (c, d) =>
        Except.ok
          { response := if r.response = "" then noResponseText else r.response
            sessionId := r.sessionId
            cost := c
            duration := d
            modelUsed := "Claude Sonnet 4" }

/-- The rate/availability signature test of the outer `catch`. -/
def isRateClass (e : JsError) : Bool :=
  includes e.message "exit code 1" || includes e.message "exited with code 1"

/-- The cancellation-class test of the inner `catch` (retry failed). -/
def isCancelClass (env2 : AttemptBehavior) (e : JsError) : Bool :=
  e.name = "AbortError" || signalAborted env2.abortAt env2.msgs.length
    || includes e.message "exited with code 143"

/-- The two `claudeQuery` attempts the environment would serve to one
`sendToClaudeCode` invocation: the default-model call and the (potential)
fallback call. -/
structure QueryEnv where
  defaultAttempt : AttemptBehavior
  retryAttempt : AttemptBehavior
deriving DecidableEq, Repr

/-- `sendToClaudeCode` from `src/claude/client.ts`, instrumented with the
list of `useRetryModel` flags of the `executeWithErrorHandling` calls it
performs (the call-count trace on the underlying invocation primitive). -/
def sendToClaudeCode (env : QueryEnv) (hasOnStreamJson : Bool) :
    Except JsError ClaudeResult × List Bool :=
  match attemptDefault env.defaultAttempt hasOnStreamJson with
  | Except.ok res => (Except.ok res, [false])
  | Except.error e =>
    if isRateClass e then
      match attemptRetry env.retryAttempt hasOnStreamJson with
      | Except.ok res => (Except.ok res, [false, true])
      | Except.error re =>
        if isCancelClass env.retryAttempt re then
          (Except.ok { response := cancelledResponse, modelUsed := "Claude Sonnet 4" },
           [false, true])
        else
          (Except.error { re with message := re.message ++ bothFailedNote }, [false, true])
    else
      (Except.error e, [false])

/-!
## Invocation-session coordinator (`src/claude/command.ts` as wired by
`src/index.ts`)

The handlers read `deps.claudeController`; the program's only wiring
(`src/index.ts` lines 64–96) builds `deps` with the object-literal
shorthand `claudeController`, which copies the then-current value of the
outer `let claudeController` variable (`null`) into the property once,
while `setClaudeController` assigns the outer variable and never the
property.  Both locations are therefore modelled separately.  Controllers
are modelled by an ever-growing list of aborted-flags (index = creation
order).
-/

/-- The invocation-session state under the `src/index.ts` wiring: the
outer `let claudeController` variable, the `deps.claudeController`
property (the value snapshot taken when `createClaudeHandlers` was
called), the aborted-flag of every controller created so far, and the
stored session id. -/
structure BotWiring where
  claudeControllerVar : Option Nat
  depsClaudeController : Option Nat
  controllers : List Bool
  claudeSessionId : Option String
deriving DecidableEq, Repr

/-- The state right after `src/index.ts` builds the handlers: the outer
variable is `null` and `deps.claudeController` snapshots that `null`. -/
def createdWiring : BotWiring :=
  { claudeControllerVar := none, depsClaudeController := none
    controllers := [], claudeSessionId := none }

/-- The supersede prefix shared by `onClaude` and `onContinue`
(`src/claude/command.ts` lines 46–53 and 91–98) as executed under the real
wiring: the guard reads `deps.claudeController` (the snapshot) and aborts
it when non-null; then `new AbortController()` is installed via
`setClaudeController`, which writes the outer `index.ts` variable only —
the `deps` property is never reassigned. -/
def onClaudeStart (s : BotWiring) : BotWiring :=
  let cs := match s.depsClaudeController with
    | some i => s.controllers.set i true
    | none => s.controllers
  { s with controllers := cs ++ [false], claudeControllerVar := some cs.length }

/-- The suffix of `onClaude` / `onContinue` once `sendToClaudeCode`
returns: `setClaudeSessionId(result.sessionId)` then
`setClaudeController(null)`, both writing `index.ts` variables. -/
def onClaudeFinish (s : BotWiring) (sid : Option String) : BotWiring :=
  { s with claudeControllerVar := none, claudeSessionId := sid }

/-- `onClaudeCancel` from `src/claude/command.ts` (lines 143–154) under
the real wiring: the guard reads the `deps.claudeController` snapshot;
when it is null the handler returns `false` and changes nothing; otherwise
it aborts that controller and clears the controller and session id through
the setters (outer variables). -/
def onClaudeCancel (s : BotWiring) : BotWiring × Bool :=
  match s.depsClaudeController with
  | none => (s, false)
  | some i =>
    ({ s with controllers := s.controllers.set i true
              claudeControllerVar := none
              claudeSessionId := none },
     true)

/-!
## Process supervisor (`ShellManager`, `src/shell.ts`)

The OS pieces are abstracted per process: how `child.status` settles, how
long the process survives a SIGTERM, and whether stdin writes succeed.
Every externally visible action is recorded in an effect trace.
-/

/-- How a `Deno.ChildProcess`'s `status` promise settles: it resolves with
an exit code, or rejects with an error message. -/
inductive StatusOutcome where
  | exited (code : Int)
  | failed (msg : String)
deriving DecidableEq, Repr

/-- Abstracted behaviour of one `Deno.ChildProcess`: how its `status`
promise settles, the time in milliseconds after a SIGTERM at which it goes
down and `status` settles (`none` = it ignores SIGTERM, so it only goes
down — and `status` only settles — after the SIGKILL at the grace
deadline), and whether writes to its stdin succeed. -/
structure ChildBehavior where
  exitStatus : StatusOutcome
  sigtermExitDelayMs : Option Nat
  stdinAccepts : Bool
deriving DecidableEq, Repr

/-- A registry entry (`ShellProcess` from `src/shell.ts` /
`src/shell/types.ts`): command line, start time, and the child handle. -/
structure ShellProcess where
  command : String
  startTime : Nat
  child : ChildBehavior
deriving DecidableEq, Repr

/-- `ShellInputResult`. -/
structure ShellInputResult where
  success : Bool
  process : Option ShellProcess := none
deriving DecidableEq, Repr

/-- `ShellKillResult`. -/
structure ShellKillResult where
  success : Bool
  process : Option ShellProcess := none
deriving DecidableEq, Repr

/-- An externally visible action of the supervisor.
`sigkillTimerLeft` records that a `killProcess` call returned with its
5-second SIGKILL timer still armed (the `clearTimeout` on the success path
was never reached), so a SIGKILL attempt on the handle fires later at the
grace deadline. -/
inductive ShellEffect where
  | spawn (workDir command : String)
  | stdinWrite (processId : Nat) (data : String)
  | signal (processId : Nat) (sig : String)
  | complete (processId : Nat) (code : Int) (output : String)
  | errorEvent (processId : Nat) (msg : String)
  | consoleError (msg : String)
  | sigkillTimerLeft (processId : Nat)
deriving DecidableEq, Repr

/-- The fields of a `ShellManager` instance. -/
structure ShellState where
  runningProcesses : List (Nat × ShellProcess)
  processIdCounter : Nat
  workDir : String
deriving DecidableEq, Repr

/-- JS `Map.prototype.set`: overwrite the entry if the key is present,
otherwise append it (insertion order preserved). -/
def mapSet (l : List (Nat × ShellProcess)) (k : Nat) (v : ShellProcess) :
    List (Nat × ShellProcess) :=
  if (l.lookup k).isSome then
    l.map (fun e => if e.1 = k then (k, v) else e)
  else
    l ++ [(k, v)]

/-- JS `Map.prototype.delete`. -/
def mapDelete (l : List (Nat × ShellProcess)) (k : Nat) :
    List (Nat × ShellProcess) :=
  l.filter (fun e => !(e.1 = k))

/-- The grace window of `killProcess`'s `setTimeout` before SIGKILL. -/
def gracePeriodMs : Nat := 5000

/-- `new ShellManager(workDir)`. -/
def mkShellManager (workDir : String) : ShellState :=
  { runningProcesses := [], processIdCounter := 0, workDir := workDir }

/-- Results an operation can hand back to its caller. -/
inductive StepResult where
  | handle (processId : Nat)
  | inputResult (r : ShellInputResult)
  | killResult (r : ShellKillResult)
  | processList (l : List (Nat × ShellProcess))
  | unit
deriving DecidableEq, Repr

/-- One supervisor operation, with the spawn-time data (start time and the
child's abstracted behaviour) and the settle-time data (accumulated output)
supplied by the environment. -/
inductive ShellOp where
  | execute (command : String) (input : Option String) (startTime : Nat)
      (child : ChildBehavior)
  | sendInput (processId : Nat) (text : String)
  | getRunningProcesses
  | killProcess (processId : Nat)
  | settle (processId : Nat) (output : String)
  | killAllProcesses
deriving DecidableEq, Repr

namespace ShellTs

/-- `ShellManager.execute` from `src/shell.ts`: bump the id counter, spawn
`bash -c command` in the configured working directory, register the process,
and write the initial input (plus newline) when given.  Returns the new
process id. -/
def execute (s : ShellState) (command : String) (input : Option String)
    (startTime : Nat) (child : ChildBehavior) :
    ShellState × Nat × List ShellEffect :=
  let processId := s.processIdCounter + 1
  let s2 : ShellState :=
    { s with processIdCounter := processId
             runningProcesses := mapSet s.runningProcesses processId
               { command := command, startTime := startTime, child := child } }
  (s2, processId,
    ShellEffect.spawn s.workDir command ::
      (match input with
       | some t => [ShellEffect.stdinWrite processId (t ++ "\n")]
       | none => []))

/-- `ShellManager.sendInput` from `src/shell.ts`: unknown handles fail with
no action; otherwise write `text` plus newline to the process's stdin,
reporting failure (with a logged error) when the write throws. -/
def sendInput (s : ShellState) (processId : Nat) (text : String) :
    ShellState × ShellInputResult × List ShellEffect :=
  match s.runningProcesses.lookup processId with
  | none => (s, { success := false }, [])
  | some p =>
    if p.child.stdinAccepts then
      (s, { success := true, process := some p },
        [ShellEffect.stdinWrite processId (text ++ "\n")])
    else
      (s, { success := false },
        [ShellEffect.stdinWrite processId (text ++ "\n"),
         ShellEffect.consoleError
           ("Failed to send input to process " ++ toString processId)])

/-- `ShellManager.getRunningProcesses` from `src/shell.ts`. -/
def getRunningProcesses (s : ShellState) : List (Nat × ShellProcess) :=
  s.runningProcesses

/-- `ShellManager.killProcess` from `src/shell.ts` (lines 163–187):
unknown handles fail with no action.  Otherwise, inside `try`: send
SIGTERM (the registry invariant — a registered handle denotes a live
process — keeps this `kill` from throwing), arm a `gracePeriodMs` timer
that sends SIGKILL if `status` has not settled by then, and await
`child.status`.  When `status` resolves: clear the timer, drop the
registry entry, report success.  When `status` rejects, the `catch` logs
and reports failure: the registry entry is kept, and the `clearTimeout`
is never reached — either the timer already fired (settle after the
deadline, SIGKILL sent) or it is left armed past the return. -/
def killProcess (s : ShellState) (processId : Nat) :
    ShellState × ShellKillResult × List ShellEffect :=
  match s.runningProcesses.lookup processId with
  | none => (s, { success := false }, [])
  | some p =>
    let sigkillFired : Bool :=
      match p.child.sigtermExitDelayMs with
      | some d => !(d ≤ gracePeriodMs)
      | none => true
    match p.child.exitStatus with
    | StatusOutcome.exited _ =>
      ({ s with runningProcesses := mapDelete s.runningProcesses processId },
       { success := true, process := some p },
       ShellEffect.signal processId "SIGTERM" ::
         (if sigkillFired then [ShellEffect.signal processId "SIGKILL"] else []))
    | StatusOutcome.failed _ =>
      (s, { success := false },
       ShellEffect.signal processId "SIGTERM" ::
         (if sigkillFired then
            [ShellEffect.signal processId "SIGKILL",
             ShellEffect.consoleError ("Failed to kill process " ++ toString processId)]
          else
            [ShellEffect.consoleError ("Failed to kill process " ++ toString processId),
             ShellEffect.sigkillTimerLeft processId]))

/-- The continuation `execute` chains on `child.status`: deregister the
handle, then publish exactly one terminal event — completion with the
OS-reported exit code and the accumulated output, or the error hook. -/
def exitPublish (s : ShellState) (processId : Nat) (child : ChildBehavior)
    (output : String) : ShellState × List ShellEffect :=
  ({ s with runningProcesses := mapDelete s.runningProcesses processId },
   match child.exitStatus with
   | StatusOutcome.exited code => [ShellEffect.complete processId code output]
   | StatusOutcome.failed msg => [ShellEffect.errorEvent processId msg])

/-- `ShellManager.killAllProcesses` from `src/shell.ts`: best-effort
SIGTERM to every registered process; no waiting, no deregistration. -/
def killAllProcesses (s : ShellState) : ShellState × List ShellEffect :=
  (s, s.runningProcesses.map (fun e => ShellEffect.signal e.1 "SIGTERM"))

/-- One operation of the supervisor's interface.  `settle` fires the
exit-continuation of a process still registered under the given handle. -/
def step (s : ShellState) : ShellOp → ShellState × StepResult × List ShellEffect
  | ShellOp.execute c i t ch =>
    let (s2, pid, effs) := execute s c i t ch
    (s2, StepResult.handle pid, effs)
  | ShellOp.sendInput pid t =>
    let (s2, r, effs) := sendInput s pid t
    (s2, StepResult.inputResult r, effs)
  | ShellOp.getRunningProcesses =>
    (s, StepResult.processList (getRunningProcesses s), [])
  | ShellOp.killProcess pid =>
    let (s2, r, effs) := killProcess s pid
    (s2, StepResult.killResult r, effs)
  | ShellOp.settle pid out =>
    match s.runningProcesses.lookup pid with
    | some p =>
      let (s2, effs) := exitPublish s pid p.child out
      (s2, StepResult.unit, effs)
    | none => (s, StepResult.unit, [])
  | ShellOp.killAllProcesses =>
    let (s2, effs) := killAllProcesses s
    (s2, StepResult.unit, effs)

/-- Run a sequence of operations, collecting results and effects. -/
def run (s : ShellState) : List ShellOp → ShellState × List StepResult × List ShellEffect
  | [] => (s, [], [])
  | op :: ops =>
    let (s2, r, effs) := step s op
    let (s3, rs, effs2) := run s2 ops
    (s3, r :: rs, effs ++ effs2)

/-- The process ids handed out by the `execute` operations of a run, in
issue order. -/
def issuedHandles (s : ShellState) : List ShellOp → List Nat
  | [] => []
  | op :: ops =>
    let (s2, r, _) := step s op
    (match r with
     | StepResult.handle pid => [pid]
     | _ => []) ++ issuedHandles s2 ops

end ShellTs

namespace Part004

/-- `ShellManager.execute` from the second document of
`src/unnamed/part_004` (lines 86–167 of the part file). -/
def execute (s : ShellState) (command : String) (input : Option String)
    (startTime : Nat) (child : ChildBehavior) :
    ShellState × Nat × List ShellEffect :=
  let processId := s.processIdCounter + 1
  let s2 : ShellState :=
    { s with processIdCounter := processId
             runningProcesses := mapSet s.runningProcesses processId
               { command := command, startTime := startTime, child := child } }
  (s2, processId,
    ShellEffect.spawn s.workDir command ::
      (match input with
       | some t => [ShellEffect.stdinWrite processId (t ++ "\n")]
       | none => []))

/-- `ShellManager.sendInput` from `src/unnamed/part_004`. -/
def sendInput (s : ShellState) (processId : Nat) (text : String) :
    ShellState × ShellInputResult × List ShellEffect :=
  match s.runningProcesses.lookup processId with
  | none => (s, { success := false }, [])
  | some p =>
    if p.child.stdinAccepts then
      (s, { success := true, process := some p },
        [ShellEffect.stdinWrite processId (text ++ "\n")])
    else
      (s, { success := false },
        [ShellEffect.stdinWrite processId (text ++ "\n"),
         ShellEffect.consoleError
           ("Failed to send input to process " ++ toString processId)])

/-- `ShellManager.getRunningProcesses` from `src/unnamed/part_004`. -/
def getRunningProcesses (s : ShellState) : List (Nat × ShellProcess) :=
  s.runningProcesses

/-- `ShellManager.killProcess` from `src/unnamed/part_004` (lines
188–210): same `try`/`catch` shape as `ShellTs.killProcess` — success
with timer cleared and entry deleted when `status` resolves, logged
failure with the entry kept (and the timer never cleared) when it
rejects. -/
def killProcess (s : ShellState) (processId : Nat) :
    ShellState × ShellKillResult × List ShellEffect :=
  match s.runningProcesses.lookup processId with
  | none => (s, { success := false }, [])
  | some p =>
    let sigkillFired : Bool :=
      match p.child.sigtermExitDelayMs with
      | some d => !(d ≤ gracePeriodMs)
      | none => true
    match p.child.exitStatus with
    | StatusOutcome.exited _ =>
      ({ s with runningProcesses := mapDelete s.runningProcesses processId },
       { success := true, process := some p },
       ShellEffect.signal processId "SIGTERM" ::
         (if sigkillFired then [ShellEffect.signal processId "SIGKILL"] else []))
    | StatusOutcome.failed _ =>
      (s, { success := false },
       ShellEffect.signal processId "SIGTERM" ::
         (if sigkillFired then
            [ShellEffect.signal processId "SIGKILL",
             ShellEffect.consoleError ("Failed to kill process " ++ toString processId)]
          else
            [ShellEffect.consoleError ("Failed to kill process " ++ toString processId),
             ShellEffect.sigkillTimerLeft processId]))

/-- The `child.status.then(...).catch(...)` continuation of
`Part004.execute`. -/
def exitPublish (s : ShellState) (processId : Nat) (child : ChildBehavior)
    (output : String) : ShellState × List ShellEffect :=
  ({ s with runningProcesses := mapDelete s.runningProcesses processId },
   match child.exitStatus with
   | StatusOutcome.exited code => [ShellEffect.complete processId code output]
   | StatusOutcome.failed msg => [ShellEffect.errorEvent processId msg])

/-- `ShellManager.killAllProcesses` from `src/unnamed/part_004` (declared
without `async`, but performing the same best-effort SIGTERM sweep). -/
def killAllProcesses (s : ShellState) : ShellState × List ShellEffect :=
  (s, s.runningProcesses.map (fun e => ShellEffect.signal e.1 "SIGTERM"))

/-- One operation of the `part_004` supervisor's interface. -/
def step (s : ShellState) : ShellOp → ShellState × StepResult × List ShellEffect
  | ShellOp.execute c i t ch =>
    let (s2, pid, effs) := execute s c i t ch
    (s2, StepResult.handle pid, effs)
  | ShellOp.sendInput pid t =>
    let (s2, r, effs) := sendInput s pid t
    (s2, StepResult.inputResult r, effs)
  | ShellOp.getRunningProcesses =>
    (s, StepResult.processList (getRunningProcesses s), [])
  | ShellOp.killProcess pid =>
    let (s2, r, effs) := killProcess s pid
    (s2, StepResult.killResult r, effs)
  | ShellOp.settle pid out =>
    match s.runningProcesses.lookup pid with
    | some p =>
      let (s2, effs) := exitPublish s pid p.child out
      (s2, StepResult.unit, effs)
    | none => (s, StepResult.unit, [])
  | ShellOp.killAllProcesses =>
    let (s2, effs) := killAllProcesses s
    (s2, StepResult.unit, effs)

/-- Run a sequence of operations on the `part_004` supervisor. -/
def run (s : ShellState) : List ShellOp → ShellState × List StepResult × List ShellEffect
  | [] => (s, [], [])
  | op :: ops =>
    let (s2, r, effs) := step s op
    let (s3, rs, effs2) := run s2 ops
    (s3, r :: rs, effs ++ effs2)

end Part004

/-!
## Concrete sample inputs

Closed instances used to evaluate the operations on explicit data.
-/

/-- A terminal `result` message carrying cost/duration/session data. -/
def sampleResultMsg : SDKMessage :=
  { type := "result", hasContent := false, textContent := ""
    sessionId := some "sid-retry", totalCostUsd := some 5, durationMs := some 1200 }

/-- An assistant message with text content. -/
def sampleAssistantMsg : SDKMessage :=
  { type := "assistant", hasContent := true, textContent := "hello from sonnet"
    sessionId := some "sid-retry", totalCostUsd := none, durationMs := none }

/-- Environment for the retry-success scenario: the default attempt throws a
rate-class error, the fallback attempt streams two messages and ends. -/
def envRetryOk : QueryEnv :=
  { defaultAttempt :=
      { msgs := [],
        failure := some { name := "Error", message := "Claude process exited with code 1" }
        abortAt := none }
    retryAttempt :=
      { msgs := [sampleAssistantMsg, sampleResultMsg], failure := none, abortAt := none } }

/-- Environment for the immediate-propagation scenario: the default attempt
throws an error without the rate-class signature. -/
def envOtherFailure : QueryEnv :=
  { defaultAttempt :=
      { msgs := [], failure := some { name := "Error", message := "ENOENT no such file" }
        abortAt := none }
    retryAttempt := { msgs := [], failure := none, abortAt := none } }

/-- Environment for the exhausted-retry scenario: the default attempt fails
with a rate-class error carrying the marker `FIRSTCAUSE`, the fallback
attempt fails with a distinct error carrying the marker `SECONDCAUSE`. -/
def envBothFail : QueryEnv :=
  { defaultAttempt :=
      { msgs := [], failure := some { name := "Error", message := "FIRSTCAUSE exit code 1" }
        abortAt := none }
    retryAttempt :=
      { msgs := [], failure := some { name := "Error", message := "SECONDCAUSE" }
        abortAt := none } }

/-- Environment in which the abort signal fires before any message of the
default attempt is handled. -/
def envAbortEarly : QueryEnv :=
  { defaultAttempt := { msgs := [sampleAssistantMsg], failure := none, abortAt := some 0 }
    retryAttempt := { msgs := [], failure := none, abortAt := none } }

/-- Environment in which the default attempt dies with the SIGTERM
signature (`exited with code 143`) — and whose message even carries the
rate-class signature as a substring, exercising the precedence of the
cancellation check. -/
def envAbortThrow : QueryEnv :=
  { defaultAttempt :=
      { msgs := [],
        failure := some { name := "Error", message := "process exited with code 143" }
        abortAt := none }
    retryAttempt := { msgs := [], failure := none, abortAt := none } }

/-- A child that obeys SIGTERM quickly, exiting with code 0. -/
def gracefulChild : ChildBehavior :=
  { exitStatus := StatusOutcome.exited 0, sigtermExitDelayMs := some 100, stdinAccepts := true }

/-- A child that ignores SIGTERM and must be SIGKILLed. -/
def stubbornChild : ChildBehavior :=
  { exitStatus := StatusOutcome.exited 137, sigtermExitDelayMs := none, stdinAccepts := true }

/-- A child whose `status` promise rejects shortly after the SIGTERM
(e.g. the underlying OS resource becomes invalid). -/
def failingChild : ChildBehavior :=
  { exitStatus := StatusOutcome.failed "resource closed"
    sigtermExitDelayMs := some 100, stdinAccepts := true }

/-- A supervisor state holding one graceful and one stubborn process. -/
def sampleShellState : ShellState :=
  { runningProcesses :=
      [(1, { command := "sleep 100", startTime := 10, child := gracefulChild }),
       (2, { command := "trap-ignore", startTime := 20, child := stubbornChild })]
    processIdCounter := 2
    workDir := "/work" }

/-- A supervisor state holding one process whose exit wait fails. -/
def failingShellState : ShellState :=
  { runningProcesses := [(3, { command := "cat", startTime := 30, child := failingChild })]
    processIdCounter := 3
    workDir := "/work" }

/-!
## Helper lemmas
-/

theorem lookup_mapDelete (l : List (Nat × ShellProcess)) (k : Nat) :
    (mapDelete l k).lookup k = none := by
  induction l with
  | nil => rfl
  | cons e t ih =>
    by_cases h : e.1 = k
    · simpa [mapDelete, h] using ih
    · have hk : (k == e.1) = false := by
        simp only [beq_eq_false_iff_ne, ne_eq]
        exact fun hh => h hh.symm
      simp only [mapDelete, List.filter_cons, h, decide_False, Bool.not_false, if_true]
      simpa [mapDelete, List.lookup, hk] using ih

theorem step_eq_part004 (s : ShellState) (op : ShellOp) :
    ShellTs.step s op = Part004.step s op := by
  cases op <;> rfl

/-- C10: the `ShellManager` of `src/shell.ts` and the `ShellManager` of
`src/unnamed/part_004` are behaviourally equivalent — every sequence of
`execute` / `sendInput` / `getRunningProcesses` / `killProcess` /
`killAllProcesses` / exit-settle operations produces the same final state,
the same returned results and the same effect (callback-delivery) trace on
both implementations. -/
theorem shellManager_equivalent :
    ∀ (s : ShellState) (ops : List ShellOp), ShellTs.run s ops = Part004.run s ops := by
  intro s ops
  induction ops generalizing s with
  | nil => rfl
  | cons op rest ih =>
    simp only [ShellTs.run, Part004.run, step_eq_part004, ih]

/-- C6: `sendInput` and `killProcess` on a handle absent from the registry
return `success := false` without raising, leave the whole supervisor state
(registry, processes, id counter) untouched, and issue no write, signal or
other effect. -/
theorem unknown_handle_no_side_effects :
    ∀ (s : ShellState) (h : Nat) (text : String),
      s.runningProcesses.lookup h = none →
      ShellTs.sendInput s h text = (s, { success := false, process := none }, []) ∧
      ShellTs.killProcess s h = (s, { success := false, process := none }, []) := by
  intro s h text hl
  constructor
  · simp [ShellTs.sendInput, hl]
  · simp [ShellTs.killProcess, hl]

/-- Witness for C6 at a fresh supervisor and the unknown handle 7. -/
theorem unknown_handle_no_side_effects_holds :
    ShellTs.sendInput (mkShellManager "/work") 7 "ls" =
        (mkShellManager "/work", { success := false, process := none }, []) ∧
    ShellTs.killProcess (mkShellManager "/work") 7 =
        (mkShellManager "/work", { success := false, process := none }, []) :=
  unknown_handle_no_side_effects (mkShellManager "/work") 7 "ls" rfl

/-- C7 counterexample: handle 3 of `failingShellState` is registered, yet
`killProcess` returns `success := false` and keeps the registry entry —
the claimed unconditional `success: true` with removal fails for a
registered process whose exit wait (`await child.status`) rejects and
lands in the `catch` of `shell.ts` lines 183–186. -/
theorem kill_registered_can_fail :
    (ShellTs.killProcess failingShellState 3).2.1 = { success := false, process := none } ∧
    (ShellTs.killProcess failingShellState 3).1.runningProcesses.lookup 3 =
      some { command := "cat", startTime := 30, child := failingChild } ∧
    (ShellTs.killProcess failingShellState 3).1 = failingShellState :=
  ⟨rfl, rfl, rfl⟩

/-- C7 (amended): for a registered handle whose exit wait succeeds
(`status` resolves), `killProcess` reports success with the process,
removes the handle (id counter untouched), always sends SIGTERM, and sends
SIGKILL exactly when the process does not exit within the 5000 ms grace
window; when the exit wait fails (`status` rejects), the `catch` reports
`success := false` with the whole state — registry entry included —
unchanged, SIGTERM having been sent and the SIGKILL timer never cleared. -/
theorem kill_registered_spec :
    ∀ (s : ShellState) (h : Nat) (p : ShellProcess),
      s.runningProcesses.lookup h = some p →
      gracePeriodMs = 5000 ∧
      (∀ code, p.child.exitStatus = StatusOutcome.exited code →
          (ShellTs.killProcess s h).2.1 = { success := true, process := some p } ∧
          (ShellTs.killProcess s h).1.runningProcesses.lookup h = none ∧
          (ShellTs.killProcess s h).1.processIdCounter = s.processIdCounter ∧
          (ShellTs.killProcess s h).2.2 =
            ShellEffect.signal h "SIGTERM" ::
              (if (match p.child.sigtermExitDelayMs with
                   | some d => !(d ≤ gracePeriodMs)
                   | none => true) = true
               then [ShellEffect.signal h "SIGKILL"] else [])) ∧
      (∀ msg, p.child.exitStatus = StatusOutcome.failed msg →
          (ShellTs.killProcess s h).2.1 = { success := false, process := none } ∧
          (ShellTs.killProcess s h).1 = s ∧
          (ShellTs.killProcess s h).2.2 =
            ShellEffect.signal h "SIGTERM" ::
              (if (match p.child.sigtermExitDelayMs with
                   | some d => !(d ≤ gracePeriodMs)
                   | none => true) = true
               then [ShellEffect.signal h "SIGKILL",
                     ShellEffect.consoleError ("Failed to kill process " ++ toString h)]
               else [ShellEffect.consoleError ("Failed to kill process " ++ toString h),
                     ShellEffect.sigkillTimerLeft h])) := by
  intro s h p hl
  refine ⟨rfl, ?_, ?_⟩
  · intro code hx
    refine ⟨?_, ?_, ?_, ?_⟩
    · simp [ShellTs.killProcess, hl, hx]
    · simp [ShellTs.killProcess, hl, hx, lookup_mapDelete]
    · simp [ShellTs.killProcess, hl, hx]
    · simp [ShellTs.killProcess, hl, hx]
  · intro msg hx
    refine ⟨?_, ?_, ?_⟩ <;> simp [ShellTs.killProcess, hl, hx]

/-- Witness for the amended C7: a graceful process (handle 1: SIGTERM
only, removed, success), a SIGTERM-ignoring process (handle 2: SIGTERM
then SIGKILL), and a process with a rejecting exit wait (handle 3:
failure, entry kept). -/
theorem kill_registered_spec_holds :
    ((ShellTs.killProcess sampleShellState 1).2.1 =
        { success := true
          process := some { command := "sleep 100", startTime := 10, child := gracefulChild } } ∧
     (ShellTs.killProcess sampleShellState 1).1.runningProcesses.lookup 1 = none ∧
     (ShellTs.killProcess sampleShellState 1).1.processIdCounter =
        sampleShellState.processIdCounter ∧
     (ShellTs.killProcess sampleShellState 1).2.2 = [ShellEffect.signal 1 "SIGTERM"]) ∧
    (ShellTs.killProcess sampleShellState 2).2.2 =
        [ShellEffect.signal 2 "SIGTERM", ShellEffect.signal 2 "SIGKILL"] ∧
    ((ShellTs.killProcess failingShellState 3).2.1 = { success := false, process := none } ∧
     (ShellTs.killProcess failingShellState 3).1 = failingShellState) := by
  have h1 := (kill_registered_spec sampleShellState 1
    { command := "sleep 100", startTime := 10, child := gracefulChild } rfl).2.1 0 rfl
  have h2 := (kill_registered_spec sampleShellState 2
    { command := "trap-ignore", startTime := 20, child := stubbornChild } rfl).2.1 137 rfl
  have h3 := (kill_registered_spec failingShellState 3
    { command := "cat", startTime := 30, child := failingChild } rfl).2.2 "resource closed" rfl
  exact ⟨⟨h1.1, h1.2.1, h1.2.2.1, h1.2.2.2⟩, h2.2.2.2, h3.1, h3.2.1⟩

theorem step_handle_spec (s : ShellState) (op : ShellOp) :
    ((ShellTs.step s op).2.1 = StepResult.handle (s.processIdCounter + 1) ∧
      (ShellTs.step s op).1.processIdCounter = s.processIdCounter + 1) ∨
    ((ShellTs.step s op).1.processIdCounter = s.processIdCounter ∧
      ∀ pid, (ShellTs.step s op).2.1 ≠ StepResult.handle pid) := by
  cases op with
  | execute c i t ch => exact Or.inl ⟨rfl, rfl⟩
  | sendInput pid t =>
    refine Or.inr ⟨?_, ?_⟩ <;>
      · rcases hl : s.runningProcesses.lookup pid with _ | p
        · simp [ShellTs.step, ShellTs.sendInput, hl]
        · by_cases hp : p.child.stdinAccepts <;>
            simp [ShellTs.step, ShellTs.sendInput, hl, hp]
  | getRunningProcesses => exact Or.inr ⟨rfl, by simp [ShellTs.step]⟩
  | killProcess pid =>
    refine Or.inr ⟨?_, ?_⟩ <;>
      · rcases hl : s.runningProcesses.lookup pid with _ | p
        · simp [ShellTs.step, ShellTs.killProcess, hl]
        · rcases hx : p.child.exitStatus <;>
            simp [ShellTs.step, ShellTs.killProcess, hl, hx]
  | settle pid out =>
    refine Or.inr ⟨?_, ?_⟩ <;>
      · rcases hl : s.runningProcesses.lookup pid with _ | p <;>
          simp [ShellTs.step, ShellTs.exitPublish, hl]
  | killAllProcesses => exact Or.inr ⟨rfl, by simp [ShellTs.step, ShellTs.killAllProcesses]⟩

theorem issuedHandles_cons (s : ShellState) (op : ShellOp) (ops : List ShellOp) :
    ShellTs.issuedHandles s (op :: ops) =
      (match (ShellTs.step s op).2.1 with
       | StepResult.handle pid => [pid]
       | _ => []) ++ ShellTs.issuedHandles (ShellTs.step s op).1 ops := rfl

theorem mem_issuedHandles_gt :
    ∀ (ops : List ShellOp) (s : ShellState) (h : Nat),
      h ∈ ShellTs.issuedHandles s ops → s.processIdCounter < h := by
  intro ops
  induction ops with
  | nil => intro s h hm; simp [ShellTs.issuedHandles] at hm
  | cons op rest ih =>
    intro s h hm
    rw [issuedHandles_cons] at hm
    rcases step_handle_spec s op with ⟨hr, hc⟩ | ⟨hc, hnr⟩
    · rw [hr] at hm
      simp only [List.mem_append, List.mem_singleton] at hm
      rcases hm with hm | hm
      · omega
      · have := ih _ _ hm
        omega
    · rcases hm' : (ShellTs.step s op).2.1 with pid | r | r | l | u <;> rw [hm'] at hm
      case handle => exact absurd hm' (hnr _)
      all_goals
        simp only [List.nil_append] at hm
        have := ih _ _ hm
        omega

theorem issuedHandles_pairwise :
    ∀ (ops : List ShellOp) (s : ShellState),
      (ShellTs.issuedHandles s ops).Pairwise (· < ·) := by
  intro ops
  induction ops with
  | nil => intro s; simp [ShellTs.issuedHandles]
  | cons op rest ih =>
    intro s
    rw [issuedHandles_cons]
    rcases step_handle_spec s op with ⟨hr, hc⟩ | ⟨hc, hnr⟩
    · rw [hr]
      simp only [List.singleton_append, List.pairwise_cons]
      refine ⟨?_, ih _⟩
      intro b hb
      have := mem_issuedHandles_gt rest _ b hb
      omega
    · rcases hm' : (ShellTs.step s op).2.1 with pid | r | r | l | u
      case handle => exact absurd hm' (hnr _)
      all_goals simpa using ih _

/-- C2: across any operation sequence on one supervisor instance, the
handles returned by the `execute` calls are pairwise strictly increasing in
issue order — unique, monotone, and never reused even after kills and
exits remove their registry entries. -/
theorem spawn_handles_strictly_monotone :
    ∀ (workDir : String) (ops : List ShellOp),
      (ShellTs.issuedHandles (mkShellManager workDir) ops).Pairwise (· < ·) :=
  fun _ ops => issuedHandles_pairwise ops _

/-- C8: the exit continuation of a spawned process publishes exactly one
terminal event — completion with the OS-reported exit code and the full
accumulated output when `status` resolves, the error hook when it rejects,
never both — then deregisters the handle, after which a further settle of
the same handle publishes nothing. -/
theorem exit_publishes_exactly_once :
    ∀ (s : ShellState) (pid : Nat) (child : ChildBehavior) (output out2 : String),
      (ShellTs.exitPublish s pid child output).2.length = 1 ∧
      (∀ code, child.exitStatus = StatusOutcome.exited code →
          (ShellTs.exitPublish s pid child output).2 =
            [ShellEffect.complete pid code output]) ∧
      (∀ msg, child.exitStatus = StatusOutcome.failed msg →
          (ShellTs.exitPublish s pid child output).2 =
            [ShellEffect.errorEvent pid msg]) ∧
      (ShellTs.exitPublish s pid child output).1.runningProcesses.lookup pid = none ∧
      ShellTs.step (ShellTs.exitPublish s pid child output).1 (ShellOp.settle pid out2) =
        ((ShellTs.exitPublish s pid child output).1, StepResult.unit, []) := by
  intro s pid child output out2
  refine ⟨?_, ?_, ?_, ?_, ?_⟩
  · rcases hc : child.exitStatus <;> simp [ShellTs.exitPublish, hc]
  · intro code hc; simp [ShellTs.exitPublish, hc]
  · intro msg hm; simp [ShellTs.exitPublish, hm]
  · simp [ShellTs.exitPublish, lookup_mapDelete]
  · have hnone :
        (ShellTs.exitPublish s pid child output).1.runningProcesses.lookup pid = none := by
      simp [ShellTs.exitPublish, lookup_mapDelete]
    simp [ShellTs.step, hnone]

/-- Witness for C8: a process exiting with code 0 publishes one completion
with the accumulated output and is deregistered. -/
theorem exit_publishes_exactly_once_holds :
    (ShellTs.exitPublish sampleShellState 1 gracefulChild "combined output").2 =
        [ShellEffect.complete 1 0 "combined output"] ∧
    (ShellTs.exitPublish sampleShellState 1 gracefulChild
        "combined output").1.runningProcesses.lookup 1 = none :=
  ⟨(exit_publishes_exactly_once sampleShellState 1 gracefulChild "combined output" "x").2.1
      0 rfl,
   (exit_publishes_exactly_once sampleShellState 1 gracefulChild "combined output"
      "x").2.2.2.1⟩

theorem mem_of_mem_dropWhile {p : Char → Bool} {l : List Char} {c : Char}
    (h : c ∈ l.dropWhile p) : c ∈ l :=
  (List.dropWhile_sublist p).mem h

theorem head?_dropWhile_spec {p : Char → Bool} :
    ∀ {l : List Char} {c : Char}, (l.dropWhile p).head? = some c → p c = false := by
  intro l
  induction l with
  | nil => intro c h; simp [List.dropWhile] at h
  | cons a t ih =>
    intro c h
    by_cases ha : p a
    · rw [List.dropWhile_cons_of_pos ha] at h
      exact ih h
    · rw [List.dropWhile_cons_of_neg ha] at h
      simp only [List.head?_cons, Option.some.injEq] at h
      rw [← h]
      exact Bool.eq_false_iff.mpr ha

theorem trimRightChars_prefix_of_self (l : List Char) : trimRightChars l <+: l := by
  have hs : l.reverse.dropWhile isJsSpace <:+ l.reverse := List.dropWhile_suffix _
  have h2 : (l.reverse.dropWhile isJsSpace).reverse <+: l.reverse.reverse :=
    List.reverse_prefix.2 hs
  simpa [trimRightChars] using h2

theorem head?_of_prefix_some {l₁ l₂ : List Char} {c : Char}
    (hp : l₁ <+: l₂) (h : l₁.head? = some c) : l₂.head? = some c := by
  obtain ⟨t, rfl⟩ := hp
  cases l₁ with
  | nil => simp at h
  | cons a t2 => simpa using h

theorem head?_jsTrim_spec {l : List Char} {c : Char}
    (h : (jsTrim l).head? = some c) : isJsSpace c = false := by
  unfold jsTrim at h
  have h2 : (trimLeftChars l).head? = some c :=
    head?_of_prefix_some (trimRightChars_prefix_of_self _) h
  exact head?_dropWhile_spec h2

theorem getLast?_jsTrim_spec {l : List Char} {c : Char}
    (h : (jsTrim l).getLast? = some c) : isJsSpace c = false := by
  unfold jsTrim trimRightChars at h
  rw [List.getLast?_reverse] at h
  exact head?_dropWhile_spec h

theorem mem_jsTrim {l : List Char} {c : Char} (h : c ∈ jsTrim l) : c ∈ l := by
  unfold jsTrim trimRightChars trimLeftChars at h
  rw [List.mem_reverse] at h
  have := mem_of_mem_dropWhile h
  rw [List.mem_reverse] at this
  exact mem_of_mem_dropWhile this

/-- C9: `cleanSessionId` sanitizes a pasted continuation identifier — a
backticked `abc123` and a triple-backtick fenced `abc123` both clean to
exactly `abc123`; for every input the result carries no newline or carriage
return, and neither its first nor its last character is whitespace. -/
theorem cleanSessionId_sanitizes :
    cleanSessionId "`abc123`" = "abc123" ∧
    cleanSessionId "```\nabc123\n```" = "abc123" ∧
    (∀ (s : String) (c : Char), c ∈ (cleanSessionId s).data → c ≠ '\n' ∧ c ≠ '\r') ∧
    (∀ (s : String) (c : Char),
        (cleanSessionId s).data.head? = some c → isJsSpace c = false) ∧
    (∀ (s : String) (c : Char),
        (cleanSessionId s).data.getLast? = some c → isJsSpace c = false) := by
  refine ⟨by decide, by decide, ?_, ?_, ?_⟩
  · intro s c hc
    have hm : c ∈ removeNewlines (stripCodeBlockEnd (stripCodeBlockStart
        (stripTickEnds (jsTrim s.data)))) := mem_jsTrim hc
    unfold removeNewlines at hm
    have := List.of_mem_filter hm
    constructor <;> · rintro rfl; simp at this
  · intro s c hc
    exact head?_jsTrim_spec hc
  · intro s c hc
    exact getLast?_jsTrim_spec hc

/-- Witness for C9 at the concrete inputs of the claim. -/
theorem cleanSessionId_sanitizes_holds :
    cleanSessionId "`abc123`" = "abc123" ∧
    ((('a' : Char) ≠ '\n' ∧ ('a' : Char) ≠ '\r') ∧ isJsSpace 'a' = false) :=
  ⟨cleanSessionId_sanitizes.1,
   cleanSessionId_sanitizes.2.2.1 "`abc123`" 'a' (by decide),
   cleanSessionId_sanitizes.2.2.2.1 "`abc123`" 'a' (by decide)⟩

/-- C1 (code bug): no handler ever writes the `deps.claudeController`
property, so under the program's only wiring — where it is a `null`
snapshot from the moment `src/index.ts` builds `deps` — the supersede
prefix of `onClaude`/`onContinue` appends a fresh controller without
aborting any existing one, and `onClaudeCancel` returns `false` with the
state unchanged; in particular two back-to-back starts from the freshly
created bot leave two unaborted controllers live at once, refuting the
at-most-one-active-session invariant the spec states. -/
theorem supersede_and_cancel_ineffective :
    (∀ s : BotWiring, s.depsClaudeController = none →
        (onClaudeStart s).controllers = s.controllers ++ [false] ∧
        onClaudeCancel s = (s, false)) ∧
    (∀ (s : BotWiring) (sid : Option String),
        (onClaudeStart s).depsClaudeController = s.depsClaudeController ∧
        (onClaudeFinish s sid).depsClaudeController = s.depsClaudeController ∧
        (onClaudeCancel s).1.depsClaudeController = s.depsClaudeController) ∧
    ((onClaudeStart (onClaudeStart createdWiring)).controllers = [false, false] ∧
     (onClaudeStart (onClaudeStart createdWiring)).claudeControllerVar = some 1 ∧
     onClaudeCancel (onClaudeStart (onClaudeStart createdWiring)) =
       (onClaudeStart (onClaudeStart createdWiring), false)) := by
  refine ⟨?_, ?_, rfl, rfl, rfl⟩
  · intro s hn
    exact ⟨by simp [onClaudeStart, hn], by simp [onClaudeCancel, hn]⟩
  · intro s sid
    refine ⟨by simp [onClaudeStart], rfl, ?_⟩
    rcases hi : s.depsClaudeController with _ | i <;> simp [onClaudeCancel, hi]

/-- Witness for C1 at the freshly created wiring. -/
theorem supersede_and_cancel_ineffective_holds :
    (onClaudeStart createdWiring).controllers = createdWiring.controllers ++ [false] ∧
    onClaudeCancel createdWiring = (createdWiring, false) :=
  supersede_and_cancel_ineffective.1 createdWiring rfl

/-- C3: a first attempt failing with the rate-class signature triggers
exactly one full retry on the fallback model (call trace `[false, true]`,
i.e. one default-model call then one fallback call); when that retry
succeeds, the returned record carries `modelUsed = "Claude Sonnet 4"` and
the retry attempt's response text, session id and terminal-message data.
A first-attempt failure without the signature propagates unchanged with no
retry (call trace `[false]`). -/
theorem sendToClaudeCode_retry_policy :
    (∀ (env : QueryEnv) (hOSJ : Bool) (e : JsError),
        attemptDefault env.defaultAttempt hOSJ = Except.error e →
        isRateClass e = true →
        (sendToClaudeCode env hOSJ).2 = [false, true]) ∧
    (∀ (env : QueryEnv) (hOSJ : Bool) (e : JsError) (r : InnerResult),
        attemptDefault env.defaultAttempt hOSJ = Except.error e →
        isRateClass e = true →
        executeWithErrorHandling env.retryAttempt hOSJ = Except.ok r →
        r.aborted = false →
        r.messages ≠ [] →
        ∃ m, r.messages.getLast? = some m ∧
          (sendToClaudeCode env hOSJ).1 = Except.ok
            { response := if r.response = "" then noResponseText else r.response
              sessionId := r.sessionId
              cost := m.totalCostUsd
              duration := m.durationMs
              modelUsed := "Claude Sonnet 4" }) ∧
    (∀ (env : QueryEnv) (hOSJ : Bool) (e : JsError),
        attemptDefault env.defaultAttempt hOSJ = Except.error e →
        isRateClass e = false →
        sendToClaudeCode env hOSJ = (Except.error e, [false])) := by
  refine ⟨?_, ?_, ?_⟩
  · intro env hOSJ e hdef hrate
    rcases hr : attemptRetry env.retryAttempt hOSJ with re | res
    · by_cases hc : isCancelClass env.retryAttempt re <;>
        simp [sendToClaudeCode, hdef, hrate, hr, hc]
    · simp [sendToClaudeCode, hdef, hrate, hr]
  · intro env hOSJ e r hdef hrate hexec habort hne
    rcases hm : r.messages.getLast? with _ | m
    · exact absurd (List.getLast?_eq_none_iff.mp hm) hne
    · refine ⟨m, rfl, ?_⟩
      have hretry : attemptRetry env.retryAttempt hOSJ = Except.ok
          { response := if r.response = "" then noResponseText else r.response
            sessionId := r.sessionId
            cost := m.totalCostUsd
            duration := m.durationMs
            modelUsed := "Claude Sonnet 4" } := by
        simp [attemptRetry, hexec, habort, getLastInfo, hm]
      simp [sendToClaudeCode, hdef, hrate, hretry]
  · intro env hOSJ e hdef hrate
    simp [sendToClaudeCode, hdef, hrate]

/-- Witness for C3: on `envRetryOk` (rate-class default failure, clean
fallback stream) exactly two attempts run and the fallback's data is
returned; on `envOtherFailure` the error propagates after one attempt. -/
theorem sendToClaudeCode_retry_policy_holds :
    (sendToClaudeCode envRetryOk false).2 = [false, true] ∧
    (∃ m, ([sampleAssistantMsg, sampleResultMsg] : List SDKMessage).getLast? = some m ∧
      (sendToClaudeCode envRetryOk false).1 = Except.ok
        { response :=
            if computeResponse false [sampleAssistantMsg, sampleResultMsg] = ""
            then noResponseText
            else computeResponse false [sampleAssistantMsg, sampleResultMsg]
          sessionId := computeSessionId [sampleAssistantMsg, sampleResultMsg]
          cost := m.totalCostUsd
          duration := m.durationMs
          modelUsed := "Claude Sonnet 4" }) ∧
    sendToClaudeCode envOtherFailure false =
      (Except.error { name := "Error", message := "ENOENT no such file" }, [false]) :=
  ⟨sendToClaudeCode_retry_policy.1 envRetryOk false
      { name := "Error", message := "Claude process exited with code 1" } rfl rfl,
   sendToClaudeCode_retry_policy.2.1 envRetryOk false
      { name := "Error", message := "Claude process exited with code 1" }
      { messages := [sampleAssistantMsg, sampleResultMsg]
        response := computeResponse false [sampleAssistantMsg, sampleResultMsg]
        sessionId := computeSessionId [sampleAssistantMsg, sampleResultMsg]
        aborted := false }
      rfl rfl rfl rfl (by decide),
   sendToClaudeCode_retry_policy.2.2 envOtherFailure false
      { name := "Error", message := "ENOENT no such file" } rfl rfl⟩

/-- C4 counterexample: with a first attempt failing as
`"FIRSTCAUSE exit code 1"` (rate-class) and a fallback attempt failing as
`"SECONDCAUSE"`, the surfaced error is the retry error with the note
appended — it contains the second cause but not the first, so the two
underlying causes are not both concatenated into it. -/
theorem exhausted_retry_drops_first_cause :
    (sendToClaudeCode envBothFail false).1 =
      Except.error { name := "Error", message := "SECONDCAUSE" ++ bothFailedNote } ∧
    includes ("SECONDCAUSE" ++ bothFailedNote) "SECONDCAUSE" = true ∧
    includes ("SECONDCAUSE" ++ bothFailedNote) "FIRSTCAUSE" = false ∧
    includes ("SECONDCAUSE" ++ bothFailedNote) "exit code 1" = false := by
  refine ⟨rfl, ?_, ?_, ?_⟩ <;> decide

/-- C4 amended: when the default attempt fails with the rate-class
signature and the fallback retry then also fails with a non-cancellation
error, the caller receives the retry failure's error with the note (stating
that both the default model and Sonnet 4 errored) appended to its message;
the first attempt's cause is not attached. -/
theorem exhausted_retry_error_carries_note :
    ∀ (env : QueryEnv) (hOSJ : Bool) (e re : JsError),
      attemptDefault env.defaultAttempt hOSJ = Except.error e →
      isRateClass e = true →
      attemptRetry env.retryAttempt hOSJ = Except.error re →
      isCancelClass env.retryAttempt re = false →
      sendToClaudeCode env hOSJ =
        (Except.error { name := re.name, message := re.message ++ bothFailedNote },
         [false, true]) := by
  intro env hOSJ e re hdef hrate hretry hcancel
  simp [sendToClaudeCode, hdef, hrate, hretry, hcancel]

/-- Witness for the amended C4 on `envBothFail`. -/
theorem exhausted_retry_error_carries_note_holds :
    sendToClaudeCode envBothFail false =
      (Except.error { name := "Error", message := "SECONDCAUSE" ++ bothFailedNote },
       [false, true]) :=
  exhausted_retry_error_carries_note envBothFail false
    { name := "Error", message := "FIRSTCAUSE exit code 1" }
    { name := "Error", message := "SECONDCAUSE" } rfl rfl rfl rfl

/-- C5: when the cancellation signal fires no later than the end of the
default attempt's stream, or the attempt throws an `AbortError` /
`exited with code 143`-class error, `sendToClaudeCode` returns normally
with the distinguished cancelled result — and performs no fallback retry
(call trace `[false]`), even if the error text would also match the
rate-class signature. -/
theorem cancellation_yields_cancelled_outcome :
    (∀ (env : QueryEnv) (hOSJ : Bool) (k : Nat),
        env.defaultAttempt.abortAt = some k →
        k ≤ env.defaultAttempt.msgs.length →
        sendToClaudeCode env hOSJ =
          (Except.ok { response := cancelledResponse, modelUsed := "Default" }, [false])) ∧
    (∀ (env : QueryEnv) (hOSJ : Bool) (e : JsError),
        env.defaultAttempt.failure = some e →
        (e.name = "AbortError" || includes e.message "exited with code 143") = true →
        sendToClaudeCode env hOSJ =
          (Except.ok { response := cancelledResponse, modelUsed := "Default" }, [false])) := by
  constructor
  · intro env hOSJ k hk hkle
    have hdef : attemptDefault env.defaultAttempt hOSJ =
        Except.ok { response := cancelledResponse, modelUsed := "Default" } := by
      by_cases hlt : k < env.defaultAttempt.msgs.length
      · simp [attemptDefault, executeWithErrorHandling, hk, hlt]
      · rcases hf : env.defaultAttempt.failure with _ | e
        · simp [attemptDefault, executeWithErrorHandling, hk, hlt, hf,
            signalAborted, hkle]
        · simp [attemptDefault, executeWithErrorHandling, hk, hlt, hf,
            signalAborted, hkle]
    simp [sendToClaudeCode, hdef]
  · intro env hOSJ e hf hce
    have hdef : attemptDefault env.defaultAttempt hOSJ =
        Except.ok { response := cancelledResponse, modelUsed := "Default" } := by
      rcases Bool.or_eq_true_iff.mp hce with h1 | h1 <;>
      · rcases ha : env.defaultAttempt.abortAt with _ | k
        · simp [attemptDefault, executeWithErrorHandling, ha, hf, h1]
        · by_cases hlt : k < env.defaultAttempt.msgs.length
          · simp [attemptDefault, executeWithErrorHandling, ha, hlt]
          · simp [attemptDefault, executeWithErrorHandling, ha, hlt, hf, h1]
    simp [sendToClaudeCode, hdef]

/-- Witness for C5: the signal fires before the first message of
`envAbortEarly`; `envAbortThrow` dies with the SIGTERM signature (whose
message even contains the rate signature as a substring) — both invocations
return the cancelled result after a single attempt. -/
theorem cancellation_yields_cancelled_outcome_holds :
    sendToClaudeCode envAbortEarly false =
      (Except.ok { response := cancelledResponse, modelUsed := "Default" }, [false]) ∧
    sendToClaudeCode envAbortThrow false =
      (Except.ok { response := cancelledResponse, modelUsed := "Default" }, [false]) :=
  ⟨cancellation_yields_cancelled_outcome.1 envAbortEarly false 0 rfl (by decide),
   cancellation_yields_cancelled_outcome.2 envAbortThrow false
      { name := "Error", message := "process exited with code 143" } rfl (by decide)⟩
